import Mathlib

/-!
Shallow embedding of `src/creator_identification_1.py` (Creator Matching app).

The app loads a tabular creator dataset (CSV/Excel), validates its columns,
embeds creator bios and a campaign brief with a sentence-embedding model,
attaches a cosine-similarity score per record, caches the scored result in
session state keyed by (file hash, trimmed brief), and finally filters,
sorts descending by score, truncates to top-N and exports CSV.

Modelling conventions:
* A pandas `DataFrame` is a column-name list plus a list of rows, each row a
  list of cell values aligned with the column list.
* Cell values are strings, real numbers, or embedding vectors (`List ℝ`);
  Python floats are idealized as real numbers.
* The embedding model is an explicit function parameter (`String → Vec`, or
  `String → Except String Vec` where its failure matters);
  `model.encode(list)` is modelled element-wise (one embedding per input
  text, order preserved), as documented by sentence-transformers.
* `util.cos_sim` divides the dot product by the two L2 norms; it is embedded
  exactly that way (`dot a b / (‖a‖ * ‖b‖)` with real square roots).
* The batched `encode` and the torch tensor shapes matter only for the empty
  batch: `embed_and_score` attaches the cosine scores element-wise (exact for
  non-empty datasets), while `embed_and_score_t` keeps the stacked-array and
  matrix-product shapes, under which a zero-row dataset makes the
  query-by-bios matrix product of `util.cos_sim` a shape error.
* pandas `sort_values(ascending=False)` with its default `kind='quicksort'`
  documents only that the result is a permutation of the rows weakly
  descending in the key; the order of tied keys is unspecified (only the
  mergesort/stable kinds are documented stable). That contract is the
  relation `sorted_desc_perm`; the functional embedding `sort_values_desc`
  picks one admissible refinement (a stable insertion kernel), and no
  theorem below relies on its tie order.
* Python-level mutation matters only for one claim; for it, pandas frames
  are modelled by reference into an explicit heap (`PdHeap`), mirroring
  which frame object each statement of `embed_and_score` touches.
-/

namespace CreatorMatching

/-- An embedding vector: a list of real components (idealizing float32). -/
abbrev Vec := List ℝ

/-- A dataframe cell: a string, a number, or an embedding vector. -/
inductive Value where
  | str (s : String)
  | num (x : ℝ)
  | vec (v : Vec)

/-- A pandas DataFrame: ordered column names plus rows of cells, each row
aligned positionally with `cols`. -/
structure DataFrame where
  cols : List String
  rows : List (List Value)

/-- The empty frame, used as the out-of-range default for heap reads. -/
def empty_frame : DataFrame := ⟨[], []⟩

/-- Reading a cell as text, as `model.encode` receives bio cells; cells of
the claims' datasets are strings, other cells are coerced to `""`. -/
def to_text : Value → String
  | .str s => s
  | _ => ""

/-- Reading a cell as a number (used for the `similarity_score` sort key). -/
def as_num : Value → ℝ
  | .num x => x
  | _ => 0

/-- Equality test of a cell against a string, as in
`filtered_df["niche"] == selected_niche`. -/
def value_eq_str : Value → String → Bool
  | .str t, s => t == s
  | _, _ => false

/-- Column projection `df[c]` as a list of cells, one per row (positional
lookup of `c` in `df.cols`). -/
def col_values (df : DataFrame) (c : String) : List Value :=
  df.rows.map (fun r => r.getD (List.indexOf c df.cols) (Value.str ""))

/-- Column assignment `df[c] = vals` (pandas semantics: overwrite the column
in place when it exists, otherwise append it as the last column). -/
def set_column (df : DataFrame) (c : String) (vals : List Value) : DataFrame :=
  if c ∈ df.cols then
    ⟨df.cols, df.rows.zipWith (fun r v => r.set (List.indexOf c df.cols) v) vals⟩
  else
    ⟨df.cols ++ [c], df.rows.zipWith (fun r v => r ++ [v]) vals⟩

/-- Column removal `df.drop(columns=[c])` (returns a new frame). -/
def drop_column (df : DataFrame) (c : String) : DataFrame :=
  ⟨df.cols.filter (fun x => x ≠ c),
   df.rows.map (fun r => ((df.cols.zip r).filter (fun p => p.1 ≠ c)).map Prod.snd)⟩

/-- Dot product of two vectors (componentwise over the common length). -/
def dot : Vec → Vec → ℝ
  | x :: xs, y :: ys => x * y + dot xs ys
  | _, _ => 0

/-- Sum of squared components, the squared L2 norm. -/
def sumSq (v : Vec) : ℝ := dot v v

/-- The L2 norm of a vector. -/
noncomputable def l2norm (v : Vec) : ℝ := Real.sqrt (sumSq v)

/-- Cosine similarity exactly as `sentence_transformers.util.cos_sim`
computes it: the dot product divided by the product of L2 norms. -/
noncomputable def cos_sim (a b : Vec) : ℝ := dot a b / (l2norm a * l2norm b)

/-- Shape-level model of `util.cos_sim(query, torch.tensor(bio_embeddings))`
as reached from `embed_and_score`. `np.asarray` of the empty batch stacks to
a 1-dimensional shape-(0,) array, so `torch.tensor` of it is 1-dimensional
and `cos_sim` unsqueezes it to a single empty row (shape 1 x 0); a
non-empty batch is the n x d row matrix. `torch.mm` then requires every
stored row's length to equal the query dimension, else it raises the
shape-mismatch `RuntimeError`; on success each row yields its cosine
against the query. -/
noncomputable def cos_sim_batch (q : Vec) (b : List Vec) : Except String (List ℝ) :=
  let bmat := if b.isEmpty then [[]] else b
  if bmat.all (fun row => row.length == q.length) then
    Except.ok (bmat.map (fun row => cos_sim q row))
  else Except.error "mat1 and mat2 shapes cannot be multiplied"

/-- The fixed instructional text prepended to the campaign brief before it
is encoded (the model's recommended retrieval-query prompt). -/
def query_instruction : String :=
  "Represent this sentence for searching relevant passages: "

/-- Pure embedding of `embed_and_score(creators_df, campaign_brief, model)`:
embed each bio, attach the embeddings as a `bio_embedding` column on a copy
of the frame, embed the prefixed brief, attach cosine similarities as
`similarity_score`, and drop `bio_embedding`. Value semantics make the
`creators_df.copy()` call the identity here; the heap-based
`embed_and_score_st` below models the aliasing behaviour of that call.
The cosine scores are attached element-wise, which coincides with the
source's batched tensor computation exactly when the dataset is non-empty
(see `embed_and_score_t` and `embed_and_score_t_agrees` for the
shape-faithful account, which instead errors on the empty batch). -/
noncomputable def embed_and_score (creators_df : DataFrame) (campaign_brief : String)
    (model : String → Vec) : DataFrame :=
  let bio_texts := (col_values creators_df "bio").map to_text
  let bio_embeddings := bio_texts.map model
  let df1 := set_column creators_df "bio_embedding" (bio_embeddings.map Value.vec)
  let query := query_instruction ++ campaign_brief
  let query_embedding := model query
  let similarities := bio_embeddings.map (fun v => cos_sim query_embedding v)
  let df2 := set_column df1 "similarity_score" (similarities.map Value.num)
  drop_column df2 "bio_embedding"

/-- Variant of `embed_and_score` for a model whose encoding step can fail
(`model unavailable`, inference failure): each encode call may raise, and
any failure aborts the whole call, as in the Python source. -/
noncomputable def embed_and_score_e (creators_df : DataFrame) (campaign_brief : String)
    (model : String → Except String Vec) : Except String DataFrame :=
  ((((col_values creators_df "bio").map to_text).mapM model).bind (fun bio_embeddings =>
    (model (query_instruction ++ campaign_brief)).bind (fun query_embedding =>
      let df1 := set_column creators_df "bio_embedding" (bio_embeddings.map Value.vec)
      let similarities := bio_embeddings.map (fun v => cos_sim query_embedding v)
      let df2 := set_column df1 "similarity_score" (similarities.map Value.num)
      Except.ok (drop_column df2 "bio_embedding"))))

/-- Batch-shape-faithful variant of `embed_and_score`: the same statement
sequence, but the similarity row is produced by `cos_sim_batch`, keeping
the stacked-array and matrix-product shapes of the source. On a zero-row
dataset the empty stacked encode reaches `util.cos_sim` as a shape-(0,)
tensor and the matrix product raises, so the whole call fails; on non-empty
datasets it returns exactly `embed_and_score` (`embed_and_score_t_agrees`). -/
noncomputable def embed_and_score_t (creators_df : DataFrame) (campaign_brief : String)
    (model : String → Vec) : Except String DataFrame :=
  let bio_texts := (col_values creators_df "bio").map to_text
  let bio_embeddings := bio_texts.map model
  let df1 := set_column creators_df "bio_embedding" (bio_embeddings.map Value.vec)
  let query := query_instruction ++ campaign_brief
  let query_embedding := model query
  (cos_sim_batch query_embedding bio_embeddings).map (fun similarities =>
    let df2 := set_column df1 "similarity_score" (similarities.map Value.num)
    drop_column df2 "bio_embedding")

/-- A heap of pandas frame objects; a frame reference is an index into it. -/
structure PdHeap where
  frames : List DataFrame

/-- Dereference a frame (out-of-range reads yield the empty frame). -/
def readF (s : PdHeap) (r : Nat) : DataFrame := s.frames.getD r empty_frame

/-- In-place update of the frame object behind a reference. -/
def writeF (s : PdHeap) (r : Nat) (df : DataFrame) : PdHeap := ⟨s.frames.set r df⟩

/-- Allocate a new frame object, returning the new heap and its reference. -/
def allocF (s : PdHeap) (df : DataFrame) : PdHeap × Nat :=
  (⟨s.frames ++ [df]⟩, s.frames.length)

/-- Heap-level embedding of `embed_and_score`, faithful to which frame
object each Python statement touches: the local name is rebound to a fresh
copy (`creators_df = creators_df.copy()`), both column assignments mutate
that copy in place, and `.drop(columns=["bio_embedding"])` allocates the
result frame, leaving the caller's frame untouched. -/
noncomputable def embed_and_score_st (s : PdHeap) (r : Nat) (campaign_brief : String)
    (model : String → Vec) : PdHeap × Nat :=
  let bio_texts := (col_values (readF s r) "bio").map to_text
  let bio_embeddings := bio_texts.map model
  let copied := allocF s (readF s r)
  let s1 := copied.1
  let rc := copied.2
  let s2 := writeF s1 rc (set_column (readF s1 rc) "bio_embedding" (bio_embeddings.map Value.vec))
  let query := query_instruction ++ campaign_brief
  let query_embedding := model query
  let similarities := bio_embeddings.map (fun v => cos_sim query_embedding v)
  let s3 := writeF s2 rc (set_column (readF s2 rc) "similarity_score" (similarities.map Value.num))
  let out := allocF s3 (drop_column (readF s3 rc) "bio_embedding")
  (out.1, out.2)

/-- The required column set of the creator schema (a Python `set` literal in
the source; modelled as a list, membership being all that is used). -/
def required_cols : List String := ["name", "bio", "niche", "location", "audience_size"]

/-- Rendering of the required-column collection inside the validation error
message (the Python f-string interpolates the set; braces, quotes and
iteration order of the set rendering are not modelled — only that every
required column name occurs verbatim in the message). -/
def render_cols : List String → String
  | [] => ""
  | [c] => c
  | c :: rest => c ++ ", " ++ render_cols rest

/-- The validation error message of `validate_dataset`. -/
def missing_columns_message (required : List String) : String :=
  "Dataset must include the following columns: " ++ render_cols required

/-- Embedding of `validate_dataset(df, required_cols)`: succeed exactly when
the required columns are a subset of the frame's columns, otherwise raise a
`ValueError` naming the required columns. -/
def validate_dataset (df : DataFrame) (required : List String) : Except String Unit :=
  if ∀ c ∈ required, c ∈ df.cols then Except.ok ()
  else Except.error (missing_columns_message required)

/-- The unsupported-extension error message of `load_dataset`. -/
def unsupported_message : String :=
  "Unsupported file format. Upload a CSV or Excel file."

/-- Python `str.lower()`, modelled characterwise on the string's data. -/
def lower (s : String) : String := ⟨s.data.map Char.toLower⟩

/-- Python `str.endswith(t)`: a suffix test on the character sequence. -/
def ends_with (s t : String) : Bool := t.data.isSuffixOf s.data

/-- Embedding of `load_dataset(uploaded_file)`: dispatch on the lowercased
filename extension. The two pandas parsers are explicit parameters (their
internals are outside this program); an unrecognized extension raises
without consulting either parser. -/
def load_dataset {α : Type} (read_csv read_excel : α → Except String DataFrame)
    (name : String) (content : α) : Except String DataFrame :=
  let file_name := lower name
  if ends_with file_name ".csv" then read_csv content
  else if ends_with file_name ".xls" || ends_with file_name ".xlsx" then read_excel content
  else Except.error unsupported_message

/-- Step 1 of the app: load, then validate against `required_cols`; any
failure yields an error and no dataset. -/
def load_and_validate {α : Type} (read_csv read_excel : α → Except String DataFrame)
    (name : String) (content : α) : Except String DataFrame :=
  (load_dataset read_csv read_excel name content).bind (fun df =>
    (validate_dataset df required_cols).map (fun _ => df))

/-- The session-state fields the scoring block reads and writes. -/
structure SessionState where
  scored_df : Option DataFrame
  last_file_hash : Option String
  last_brief : Option String

/-- Embedding of the Step-3 scoring block: recompute when the button was
pressed or the cache key (file hash, trimmed brief) does not match; on
success store the scored frame and the new key, on failure leave session
state untouched (`st.error` + `st.stop`); otherwise serve the cache. -/
noncomputable def scoring_step (st : SessionState) (submit_button : Bool)
    (file_hash brief : String) (creators_df : DataFrame)
    (model : String → Except String Vec) : SessionState × Except String DataFrame :=
  if submit_button || (st.scored_df.isNone || st.last_file_hash != some file_hash
      || st.last_brief != some brief) then
    match embed_and_score_e creators_df brief model with
    | Except.ok scored => (⟨some scored, some file_hash, some brief⟩, Except.ok scored)
    | Except.error e => (st, Except.error e)
  else
    (st, Except.ok (st.scored_df.getD empty_frame))

/-- The documented contract of `df.sort_values(by, ascending=False)` with
the default `kind='quicksort'`: the output is a permutation of the input
rows, weakly descending in the key. Nothing more is guaranteed — in
particular the relative order of tied keys is unspecified (pandas documents
only the mergesort/stable kinds as stable). -/
def sorted_desc_perm {α : Type} (key : α → ℝ) (input output : List α) : Prop :=
  output.Perm input ∧ List.Pairwise (fun a b => key b ≤ key a) output

/-- Stable descending insertion: place `x` before the first element whose
key is not larger, so an earlier element precedes later equal-key ones. -/
noncomputable def insert_desc {α : Type} (key : α → ℝ) (x : α) : List α → List α
  | [] => [x]
  | y :: ys => if key y ≤ key x then x :: y :: ys else y :: insert_desc key x ys

/-- Stable descending sort by a real-valued key. -/
noncomputable def sort_desc {α : Type} (key : α → ℝ) : List α → List α
  | [] => []
  | x :: xs => insert_desc key x (sort_desc key xs)

/-- Sort key used by `sort_values(by=by_col)`: the row's cell in that
column, read as a number. -/
def row_key (cols : List String) (by_col : String) (r : List Value) : ℝ :=
  as_num (r.getD (List.indexOf by_col cols) (Value.num 0))

/-- Functional embedding of `df.sort_values(by=by_col, ascending=False)`:
one admissible refinement of `sorted_desc_perm` (a total function must pick
some tie order; this one uses the stable kernel above). pandas' default
quicksort leaves the tie order unspecified, so no theorem below relies on
this function's tie order — claims about tie order go through the
`sorted_desc_perm` contract instead. -/
noncomputable def sort_values_desc (df : DataFrame) (by_col : String) : DataFrame :=
  ⟨df.cols, sort_desc (row_key df.cols by_col) df.rows⟩

/-- Embedding of `df.head(n)`. -/
def head_n (df : DataFrame) (n : Nat) : DataFrame := ⟨df.cols, df.rows.take n⟩

/-- Embedding of the sidebar equality filters: `"All"` keeps every row,
otherwise keep rows whose cell in `col` equals the selected string. -/
def filter_by (df : DataFrame) (col sel : String) : DataFrame :=
  if sel = "All" then df
  else ⟨df.cols,
        df.rows.filter (fun r => value_eq_str (r.getD (List.indexOf col df.cols) (Value.str "")) sel)⟩

/-- Embedding of line 160:
`filtered_df.sort_values(by="similarity_score", ascending=False).head(top_count)`. -/
noncomputable def top_creators (filtered_df : DataFrame) (top_count : Nat) : DataFrame :=
  head_n (sort_values_desc filtered_df "similarity_score") top_count

/-- Embedding of `df.to_csv(index=False)`: the comma-joined header line,
then one comma-joined line per row. Rendering a cell to text (pandas'
decimal formatting of floats) is an explicit parameter. -/
def to_csv (render : Value → String) (df : DataFrame) : String :=
  String.intercalate "," df.cols ++ "\n"
    ++ String.join (df.rows.map (fun r => String.intercalate "," (r.map render) ++ "\n"))

/-- The similarity score `embed_and_score` attaches to row `r`: cosine
similarity of the encodings of the prefixed brief and of the row's bio. -/
noncomputable def score_of (model : String → Vec) (brief : String)
    (cols : List String) (r : List Value) : ℝ :=
  cos_sim (model (query_instruction ++ brief))
    (model (to_text (r.getD (List.indexOf "bio" cols) (Value.str ""))))

/-- A concrete two-creator frame with the required schema, used as a test
fixture when instantiating the theorems below. -/
def sample_frame : DataFrame :=
  ⟨["name", "bio", "niche", "location", "audience_size"],
   [[Value.str "Asha", Value.str "eco fashion blogger", Value.str "fashion",
     Value.str "India", Value.num 1000],
    [Value.str "Ben", Value.str "tech reviewer", Value.str "tech",
     Value.str "US", Value.num 2000]]⟩

/-- A toy embedding model returning a fixed one-dimensional unit vector,
used as a test fixture. -/
def unit_model : String → Vec := fun _ => [1]

/-! ## Vector arithmetic lemmas -/

/-- Dot product of equal-length vectors as a finite sum over positions. -/
theorem dot_eq_sum : ∀ (a b : Vec), a.length = b.length →
    dot a b = ∑ i ∈ Finset.range a.length, a.getD i 0 * b.getD i 0
  | [], [], _ => by simp [dot]
  | [], _ :: _, h => by simp at h
  | _ :: _, [], h => by simp at h
  | x :: xs, y :: ys, h => by
    have ih := dot_eq_sum xs ys (by simpa using h)
    simp only [dot, List.length_cons]
    rw [Finset.sum_range_succ']
    simp [List.getD_cons_succ, List.getD_cons_zero, ih, add_comm]

/-- Cauchy–Schwarz for the list dot product (equal lengths). -/
theorem dot_sq_le (a b : Vec) (h : a.length = b.length) :
    (dot a b) ^ 2 ≤ sumSq a * sumSq b := by
  rw [sumSq, sumSq, dot_eq_sum a a rfl, dot_eq_sum b b rfl, dot_eq_sum a b h, ← h]
  have hcs := Finset.sum_mul_sq_le_sq_mul_sq (Finset.range a.length)
    (fun i => a.getD i 0) (fun i => b.getD i 0)
  simpa [pow_two] using hcs

/-- For unit vectors, `cos_sim` is the plain dot product. -/
theorem cos_sim_of_unit (a b : Vec) (ha : sumSq a = 1) (hb : sumSq b = 1) :
    cos_sim a b = dot a b := by
  simp [cos_sim, l2norm, ha, hb, Real.sqrt_one]

/-- Cosine similarity of unit vectors of equal dimension lies in [-1, 1]. -/
theorem cos_sim_unit_bounds (a b : Vec) (ha : sumSq a = 1) (hb : sumSq b = 1)
    (h : a.length = b.length) : -1 ≤ cos_sim a b ∧ cos_sim a b ≤ 1 := by
  rw [cos_sim_of_unit a b ha hb]
  have h2 : (dot a b) ^ 2 ≤ 1 := by
    have hd := dot_sq_le a b h
    rw [ha, hb] at hd
    simpa using hd
  exact abs_le.mp ((sq_le_one_iff_abs_le_one (dot a b)).mp h2)

/-! ## List index and message lemmas -/

/-- Index of an element past a list that does not contain it. -/
theorem indexOf_append_notMem {c : String} :
    ∀ (l l2 : List String), c ∉ l →
      List.indexOf c (l ++ l2) = l.length + List.indexOf c l2
  | [], _, _ => by simp
  | a :: t, l2, h => by
    have hne : a ≠ c := fun hac => h (hac ▸ List.mem_cons_self a t)
    have hmem : c ∉ t := fun hct => h (List.mem_cons_of_mem a hct)
    have ih := indexOf_append_notMem t l2 hmem
    simp only [List.cons_append, List.indexOf_cons, beq_eq_false_iff_ne.mpr hne,
      cond_false, List.length_cons, ih]
    omega

/-- Index of a fresh column appended at the end of the column list. -/
theorem indexOf_append_self {c : String} (l : List String) (h : c ∉ l) :
    List.indexOf c (l ++ [c]) = l.length := by
  rw [indexOf_append_notMem l [c] h]
  simp [List.indexOf_cons]

/-- Every member of the rendered column list occurs verbatim in it. -/
theorem render_cols_infix : ∀ (l : List String) (c : String), c ∈ l →
    ∃ u v, (render_cols l).data = u ++ c.data ++ v
  | [], c, h => absurd h (List.not_mem_nil c)
  | [a], c, h => by
    have hca : c = a := by simpa using h
    subst hca
    exact ⟨[], [], by simp [render_cols]⟩
  | a :: b :: t, c, h => by
    rcases List.mem_cons.mp h with h1 | h2
    · subst h1
      exact ⟨[], (", " ++ render_cols (b :: t)).data, by
        simp [render_cols, String.data_append]⟩
    · obtain ⟨u, v, huv⟩ := render_cols_infix (b :: t) c h2
      refine ⟨(a ++ ", ").data ++ u, v, ?_⟩
      simp [render_cols, String.data_append, huv]

/-- Every required column name occurs verbatim in the validation message. -/
theorem missing_columns_message_infix (required : List String) (c : String)
    (hc : c ∈ required) :
    ∃ u v, (missing_columns_message required).data = u ++ c.data ++ v := by
  obtain ⟨u, v, huv⟩ := render_cols_infix required c hc
  exact ⟨("Dataset must include the following columns: ").data ++ u, v, by
    simp [missing_columns_message, String.data_append, huv]⟩

/-! ## Structural lemmas about `embed_and_score` -/

/-- Scoring appends exactly one column, `similarity_score`, after dropping
the intermediate `bio_embedding` column. -/
theorem embed_and_score_cols (df : DataFrame) (b : String) (m : String → Vec)
    (hbe : "bio_embedding" ∉ df.cols) (hsim : "similarity_score" ∉ df.cols) :
    (embed_and_score df b m).cols = df.cols ++ ["similarity_score"] := by
  have hsim1 : "similarity_score" ∉ df.cols ++ ["bio_embedding"] := by
    intro h
    rcases List.mem_append.mp h with h1 | h1
    · exact hsim h1
    · simp at h1
  have h1 : df.cols.filter (fun x => x ≠ "bio_embedding") = df.cols :=
    List.filter_eq_self.mpr (fun a ha => by
      simp only [ne_eq, decide_eq_true_eq]
      exact fun hab => hbe (hab ▸ ha))
  simp only [embed_and_score, set_column, drop_column, if_neg hbe, if_neg hsim1]
  rw [List.filter_append, List.filter_append, h1]
  simp

/-- Row-level effect of the final `drop(columns=["bio_embedding"])` on a row
that was extended by the two appended cells. -/
theorem drop_row_eq (cols : List String) (r : List Value) (v s : Value)
    (hbe : "bio_embedding" ∉ cols) (hlen : r.length = cols.length) :
    ((((cols ++ ["bio_embedding"]) ++ ["similarity_score"]).zip ((r ++ [v]) ++ [s])).filter
        (fun p => p.1 ≠ "bio_embedding")).map Prod.snd = r ++ [s] := by
  rw [List.zip_append (by simp [hlen]), List.zip_append hlen.symm]
  have h1 : (cols.zip r).filter (fun p => !decide (p.1 = "bio_embedding")) = cols.zip r :=
    List.filter_eq_self.mpr (fun p hp => by
      have hmem := (List.of_mem_zip hp).1
      simp only [Bool.not_eq_eq_eq_not, Bool.not_true, decide_eq_false_iff_not]
      exact fun h' => hbe (h' ▸ hmem))
  simp [List.filter_append, h1, List.map_snd_zip cols r (le_of_eq hlen)]

/-- The rows produced by `embed_and_score`: each input row, in order,
extended by exactly its similarity score. -/
theorem embed_and_score_rows (df : DataFrame) (b : String) (m : String → Vec)
    (h_len : ∀ r ∈ df.rows, r.length = df.cols.length)
    (hbe : "bio_embedding" ∉ df.cols) (hsim : "similarity_score" ∉ df.cols) :
    (embed_and_score df b m).rows
      = df.rows.map (fun r => r ++ [Value.num (score_of m b df.cols r)]) := by
  have hsim1 : "similarity_score" ∉ df.cols ++ ["bio_embedding"] := by
    intro h
    rcases List.mem_append.mp h with h1 | h1
    · exact hsim h1
    · simp at h1
  simp only [embed_and_score, set_column, drop_column, col_values, if_neg hbe, if_neg hsim1,
    List.map_map, List.zipWith_map_right, List.zipWith_same]
  rw [List.zipWith_map_left, List.zipWith_same, List.map_map]
  refine List.map_congr_left (fun r hr => ?_)
  simp only [Function.comp]
  rw [drop_row_eq df.cols r _ _ hbe (h_len r hr)]
  simp [score_of]

/-- The `similarity_score` column of the scored frame, as a map over the
input rows. -/
theorem col_values_embed (df : DataFrame) (b : String) (m : String → Vec)
    (h_len : ∀ r ∈ df.rows, r.length = df.cols.length)
    (hbe : "bio_embedding" ∉ df.cols) (hsim : "similarity_score" ∉ df.cols) :
    col_values (embed_and_score df b m) "similarity_score"
      = df.rows.map (fun r => Value.num (score_of m b df.cols r)) := by
  simp only [col_values, embed_and_score_rows df b m h_len hbe hsim,
    embed_and_score_cols df b m hbe hsim]
  rw [indexOf_append_self df.cols hsim, List.map_map]
  refine List.map_congr_left (fun r hr => ?_)
  simp only [Function.comp]
  rw [List.getD_append_right r _ _ _ (le_of_eq (h_len r hr))]
  simp [h_len r hr]

/-! ## Heap-model lemmas -/

/-- Reading a freshly allocated frame yields the allocated value. -/
theorem readF_allocF_new (s : PdHeap) (df : DataFrame) :
    readF (allocF s df).1 (allocF s df).2 = df := by
  simp [readF, allocF, List.getD_eq_getElem?_getD, List.getElem?_concat_length]

/-- Allocation does not disturb existing frames. -/
theorem readF_allocF_old (s : PdHeap) (df : DataFrame) (r : Nat)
    (h : r < s.frames.length) : readF (allocF s df).1 r = readF s r := by
  simp [readF, allocF, List.getD_eq_getElem?_getD, List.getElem?_append, h]

/-- Reading back an in-place update of a live frame. -/
theorem readF_writeF_self (s : PdHeap) (r : Nat) (df : DataFrame)
    (h : r < s.frames.length) : readF (writeF s r df) r = df := by
  simp [readF, writeF, List.getD_eq_getElem?_getD, List.getElem?_set_self, h]

/-- In-place update of one frame leaves every other frame unchanged. -/
theorem readF_writeF_ne (s : PdHeap) (r r2 : Nat) (df : DataFrame)
    (h : r2 ≠ r) : readF (writeF s r2 df) r = readF s r := by
  simp [readF, writeF, List.getD_eq_getElem?_getD, List.getElem?_set_ne h]

/-- Updates preserve the heap size. -/
theorem length_writeF (s : PdHeap) (r : Nat) (df : DataFrame) :
    (writeF s r df).frames.length = s.frames.length := by
  simp [writeF]

/-- Allocation grows the heap by one. -/
theorem length_allocF (s : PdHeap) (df : DataFrame) :
    (allocF s df).1.frames.length = s.frames.length + 1 := by
  simp [allocF]

/-- The frame object returned by the heap-level scoring is exactly the pure
`embed_and_score` of the argument frame's contents. -/
theorem embed_and_score_st_frame (s : PdHeap) (r : Nat) (b : String)
    (m : String → Vec) :
    readF (embed_and_score_st s r b m).1 (embed_and_score_st s r b m).2
      = embed_and_score (readF s r) b m := by
  simp only [embed_and_score_st]
  rw [readF_allocF_new,
    readF_writeF_self _ _ _ (by simp [length_writeF, length_allocF, allocF]),
    readF_writeF_self _ _ _ (by simp [length_allocF, allocF]),
    readF_allocF_new]
  rfl

/-- The caller's frame is untouched by the heap-level scoring. -/
theorem embed_and_score_st_caller (s : PdHeap) (r : Nat) (b : String)
    (m : String → Vec) (h : r < s.frames.length) :
    readF (embed_and_score_st s r b m).1 r = readF s r := by
  have hne : (allocF s (readF s r)).2 ≠ r := by
    simp only [allocF]
    omega
  simp only [embed_and_score_st]
  rw [readF_allocF_old _ _ _ (by simp [length_writeF, length_allocF]; omega),
    readF_writeF_ne _ _ _ _ hne, readF_writeF_ne _ _ _ _ hne,
    readF_allocF_old _ _ _ h]

/-! ## Sorting lemmas -/

/-- Insertion produces a permutation of consing. -/
theorem insert_desc_perm {α : Type} (key : α → ℝ) (x : α) :
    ∀ l : List α, (insert_desc key x l).Perm (x :: l)
  | [] => by simp [insert_desc]
  | y :: ys => by
    by_cases h : key y ≤ key x
    · simp [insert_desc, h]
    · simp only [insert_desc, if_neg h]
      exact ((insert_desc_perm key x ys).cons y).trans (List.Perm.swap x y ys)

/-- The descending sort permutes its input. -/
theorem sort_desc_perm {α : Type} (key : α → ℝ) :
    ∀ l : List α, (sort_desc key l).Perm l
  | [] => by simp [sort_desc]
  | x :: xs =>
    (insert_desc_perm key x (sort_desc key xs)).trans ((sort_desc_perm key xs).cons x)

/-- Insertion preserves the weakly-descending invariant. -/
theorem insert_desc_pairwise {α : Type} (key : α → ℝ) (x : α) :
    ∀ l : List α, List.Pairwise (fun a b => key b ≤ key a) l →
      List.Pairwise (fun a b => key b ≤ key a) (insert_desc key x l)
  | [], _ => by simp [insert_desc]
  | y :: ys, hp => by
    rcases List.pairwise_cons.mp hp with ⟨hy, hys⟩
    by_cases h : key y ≤ key x
    · simp only [insert_desc, if_pos h]
      refine List.pairwise_cons.mpr ⟨?_, hp⟩
      intro z hz
      rcases List.mem_cons.mp hz with rfl | hz2
      · exact h
      · exact le_trans (hy z hz2) h
    · simp only [insert_desc, if_neg h]
      refine List.pairwise_cons.mpr ⟨?_, insert_desc_pairwise key x ys hys⟩
      intro z hz
      have hz2 : z ∈ x :: ys := (insert_desc_perm key x ys).mem_iff.mp hz
      rcases List.mem_cons.mp hz2 with rfl | hz3
      · exact le_of_not_le h
      · exact hy z hz3

/-- The descending sort is weakly descending in the key. -/
theorem sort_desc_pairwise {α : Type} (key : α → ℝ) :
    ∀ l : List α, List.Pairwise (fun a b => key b ≤ key a) (sort_desc key l)
  | [] => by simp [sort_desc]
  | x :: xs => insert_desc_pairwise key x _ (sort_desc_pairwise key xs)

/-- A pairwise-ordered list relates every taken element to every dropped
element. -/
theorem pairwise_take_drop {α : Type} (R : α → α → Prop) (l : List α) (n : Nat)
    (hp : List.Pairwise R l) : ∀ a ∈ l.take n, ∀ b ∈ l.drop n, R a b :=
  (List.pairwise_append.mp (by rw [List.take_append_drop]; exact hp)).2.2

/-! ## Claim theorems -/

/-- C1: for every dataset of records and every brief, `embed_and_score`
returns exactly one similarity score per input record, attached to the
records in input order, and — given the model returns L2-normalized
embedding vectors of a fixed dimension — each score lies within [-1, 1]. -/
theorem embed_and_score_per_record (df : DataFrame) (brief : String)
    (model : String → Vec)
    (h_len : ∀ r ∈ df.rows, r.length = df.cols.length)
    (hbe : "bio_embedding" ∉ df.cols)
    (hsim : "similarity_score" ∉ df.cols)
    (hnorm : ∀ t : String, sumSq (model t) = 1)
    (hdim : ∀ t u : String, (model t).length = (model u).length) :
    (embed_and_score df brief model).rows.length = df.rows.length
    ∧ (embed_and_score df brief model).rows
        = df.rows.map (fun r => r ++ [Value.num (score_of model brief df.cols r)])
    ∧ ∀ r ∈ df.rows, -1 ≤ score_of model brief df.cols r
        ∧ score_of model brief df.cols r ≤ 1 := by
  have hrows := embed_and_score_rows df brief model h_len hbe hsim
  refine ⟨by rw [hrows]; simp, hrows, ?_⟩
  intro r hr
  simp only [score_of]
  exact cos_sim_unit_bounds _ _ (hnorm _) (hnorm _) (hdim _ _)

/-- Witness for C1 at the sample frame and the toy unit model. -/
theorem embed_and_score_per_record_witness :
    (embed_and_score sample_frame "eco fashion" unit_model).rows.length
        = sample_frame.rows.length
    ∧ (embed_and_score sample_frame "eco fashion" unit_model).rows
        = sample_frame.rows.map
            (fun r => r ++ [Value.num (score_of unit_model "eco fashion" sample_frame.cols r)])
    ∧ -1 ≤ score_of unit_model "eco fashion" sample_frame.cols
          [Value.str "Asha", Value.str "eco fashion blogger", Value.str "fashion",
            Value.str "India", Value.num 1000]
    ∧ score_of unit_model "eco fashion" sample_frame.cols
          [Value.str "Asha", Value.str "eco fashion blogger", Value.str "fashion",
            Value.str "India", Value.num 1000] ≤ 1 :=
  have h := embed_and_score_per_record sample_frame "eco fashion" unit_model
    (by simp [sample_frame]) (by decide) (by decide)
    (fun _ => by norm_num [unit_model, sumSq, dot])
    (fun _ _ => rfl)
  have hb := h.2.2 _ (List.mem_cons_self _ _)
  ⟨h.1, h.2.1, hb.1, hb.2⟩

/-- C2 (code bug): under the documented contract of line 160's
`sort_values(by="similarity_score", ascending=False)` with its default
unstable kind — any permutation of the rows weakly descending in the score —
top-N selection does return the N highest-scoring records, for every
admissible output (every kept record scores at least every dropped one),
and the embedded `top_creators` is one admissible refinement. But the
contract does not fix the order of tied scores: at a concrete two-row frame
with equal scores, the tie-reversed output is also admissible and differs
from the input order, so the claim's "ties appear in original input order
(stable sort)" is not guaranteed by the program. -/
theorem top_creators_tie_order_unspecified :
    (∀ (df : DataFrame) (n : Nat) (out : List (List Value)),
        sorted_desc_perm (row_key df.cols "similarity_score") df.rows out →
          ∀ a ∈ out.take n, ∀ b ∈ out.drop n,
            row_key df.cols "similarity_score" b ≤ row_key df.cols "similarity_score" a)
    ∧ (∀ (df : DataFrame) (n : Nat),
        (top_creators df n).rows = (sort_values_desc df "similarity_score").rows.take n
        ∧ sorted_desc_perm (row_key df.cols "similarity_score") df.rows
            (sort_values_desc df "similarity_score").rows)
    ∧ sorted_desc_perm
        (row_key ["name", "similarity_score"] "similarity_score")
        [[Value.str "A", Value.num 1], [Value.str "B", Value.num 1]]
        [[Value.str "B", Value.num 1], [Value.str "A", Value.num 1]]
    ∧ [[Value.str "B", Value.num 1], [Value.str "A", Value.num 1]]
        ≠ [[Value.str "A", Value.num 1], [Value.str "B", Value.num 1]] := by
  refine ⟨?_, ?_, ⟨List.Perm.swap _ _ _, ?_⟩, ?_⟩
  · intro df n out hout
    exact pairwise_take_drop _ _ n hout.2
  · intro df n
    exact ⟨rfl, sort_desc_perm _ _, sort_desc_pairwise _ _⟩
  · simp [row_key, as_num, List.indexOf_cons]
  · simp [Value.str.injEq]

/-- Witness for C2's contract part at the tied two-row frame: the
tie-reversed admissible output still keeps the higher (equal) scorer. -/
theorem top_creators_tie_order_unspecified_witness :
    row_key ["name", "similarity_score"] "similarity_score"
        [Value.str "A", Value.num 1]
      ≤ row_key ["name", "similarity_score"] "similarity_score"
          [Value.str "B", Value.num 1] :=
  have h := top_creators_tie_order_unspecified
  h.1 ⟨["name", "similarity_score"],
      [[Value.str "A", Value.num 1], [Value.str "B", Value.num 1]]⟩ 1
    [[Value.str "B", Value.num 1], [Value.str "A", Value.num 1]]
    h.2.2.1 _ (by simp) _ (by simp)

/-- C3: validation fails, with no dataset produced, exactly when the column
set is not a superset of the required columns, and the error message names
every (hence every missing) required column; otherwise it succeeds. -/
theorem validate_dataset_missing_columns (df : DataFrame) :
    ((¬ ∀ c ∈ required_cols, c ∈ df.cols) →
      validate_dataset df required_cols
          = Except.error (missing_columns_message required_cols)
      ∧ (∀ c ∈ required_cols, c ∉ df.cols →
          ∃ u v, (missing_columns_message required_cols).data = u ++ c.data ++ v)
      ∧ ∀ (α : Type) (rc re : α → Except String DataFrame) (nm : String) (ct : α),
          load_dataset rc re nm ct = Except.ok df →
            load_and_validate rc re nm ct
              = Except.error (missing_columns_message required_cols))
    ∧ ((∀ c ∈ required_cols, c ∈ df.cols) →
        validate_dataset df required_cols = Except.ok ()) := by
  constructor
  · intro hmiss
    refine ⟨by simp [validate_dataset, hmiss], ?_, ?_⟩
    · intro c hc _
      exact missing_columns_message_infix required_cols c hc
    · intro α rc re nm ct hload
      simp [load_and_validate, hload, validate_dataset, hmiss, Except.bind, Except.map]
  · intro hall
    simp only [validate_dataset, if_pos hall]

/-- Witness for C3 at a frame lacking the `bio` column. -/
theorem validate_dataset_missing_columns_witness :
    validate_dataset ⟨["name", "niche", "location", "audience_size"], []⟩ required_cols
      = Except.error (missing_columns_message required_cols) :=
  ((validate_dataset_missing_columns
    ⟨["name", "niche", "location", "audience_size"], []⟩).1 (by decide)).1

/-- C4: a failing embedding step leaves the session cache (scored frame and
its cache key) unchanged; the cache is replaced only on a successful
`embed_and_score` run, and then with the new key. -/
theorem scoring_step_cache_preservation (st : SessionState) (submit : Bool)
    (file_hash brief : String) (df : DataFrame)
    (model : String → Except String Vec) :
    (∀ e, embed_and_score_e df brief model = Except.error e →
        (scoring_step st submit file_hash brief df model).1 = st)
    ∧ ((scoring_step st submit file_hash brief df model).1 ≠ st →
        ∃ scored, embed_and_score_e df brief model = Except.ok scored
          ∧ (scoring_step st submit file_hash brief df model).1
              = ⟨some scored, some file_hash, some brief⟩) := by
  constructor
  · intro e he
    by_cases hcond : (submit || (st.scored_df.isNone || st.last_file_hash != some file_hash
        || st.last_brief != some brief)) = true
    · simp [scoring_step, hcond, he]
    · simp [scoring_step, hcond]
  · intro hne
    by_cases hcond : (submit || (st.scored_df.isNone || st.last_file_hash != some file_hash
        || st.last_brief != some brief)) = true
    · cases hemb : embed_and_score_e df brief model with
      | ok scored => exact ⟨scored, rfl, by simp [scoring_step, hcond, hemb]⟩
      | error e => exact absurd (by simp [scoring_step, hcond, hemb]) hne
    · exact absurd (by simp [scoring_step, hcond]) hne

/-- Witness for C4: an unavailable model fails the call and the previously
cached result and key survive untouched. -/
theorem scoring_step_cache_preservation_witness :
    (scoring_step ⟨some sample_frame, some "hash0", some "brief0"⟩ true "hash1" "brief1"
        sample_frame (fun _ => Except.error "model unavailable")).1
      = ⟨some sample_frame, some "hash0", some "brief0"⟩ :=
  (scoring_step_cache_preservation ⟨some sample_frame, some "hash0", some "brief0"⟩ true
    "hash1" "brief1" sample_frame (fun _ => Except.error "model unavailable")).1
    "model unavailable" rfl

/-- On non-empty datasets the shape-faithful scoring succeeds and returns
exactly the element-wise `embed_and_score` (given the model's outputs have
one fixed dimension), so the approved per-record theorems describe the
source wherever it does not raise. -/
theorem embed_and_score_t_agrees (df : DataFrame) (brief : String)
    (model : String → Vec) (hne : df.rows ≠ [])
    (hdim : ∀ t u : String, (model t).length = (model u).length) :
    embed_and_score_t df brief model = Except.ok (embed_and_score df brief model) := by
  have hb : (((col_values df "bio").map to_text).map model).isEmpty = false := by
    cases hr : df.rows with
    | nil => exact absurd hr hne
    | cons r rs => simp [col_values, hr]
  have hall : (((col_values df "bio").map to_text).map model).all
      (fun row => row.length == (model (query_instruction ++ brief)).length) = true := by
    rw [List.all_eq_true]
    intro row hrow
    rcases List.mem_map.mp hrow with ⟨t, _, rfl⟩
    exact beq_iff_eq.mpr (hdim t _)
  simp only [embed_and_score_t, embed_and_score, cos_sim_batch, hb, hall,
    Bool.false_eq_true, if_false, if_true, Except.map]

/-- Counterexample to C5 as stated: at a concrete zero-row frame with the
required schema, a non-empty brief and a one-dimensional unit model, the
shape-faithful scoring raises the matrix-shape error; it does not return an
empty scored result. -/
theorem embed_and_score_empty_dataset_counterexample :
    (embed_and_score_t ⟨required_cols, []⟩ "eco" unit_model).isOk = false
    ∧ embed_and_score_t ⟨required_cols, []⟩ "eco" unit_model
        = Except.error "mat1 and mat2 shapes cannot be multiplied" :=
  ⟨rfl, rfl⟩

/-- C5 (corrected): for a zero-row dataset, a non-empty brief and any model
of nonzero embedding dimension, `embed_and_score` raises the shape-mismatch
error — the batched empty encode stacks to a shape-(0,) tensor whose matrix
product against the (1, d) query tensor is invalid — instead of returning
an empty scored result; the failure is surfaced to the caller like any
other embedding failure. -/
theorem embed_and_score_empty_dataset_raises (df : DataFrame) (brief : String)
    (model : String → Vec) (h : df.rows = [])
    (hd : (model (query_instruction ++ brief)).length ≠ 0) :
    embed_and_score_t df brief model
      = Except.error "mat1 and mat2 shapes cannot be multiplied" := by
  have h0 : (0 == (model (query_instruction ++ brief)).length) = false :=
    beq_eq_false_iff_ne.mpr (fun h0 => hd h0.symm)
  simp [embed_and_score_t, col_values, h, cos_sim_batch, h0, Except.map]

/-- Witness for C5's amended claim at the empty frame and the unit model. -/
theorem embed_and_score_empty_dataset_raises_witness :
    embed_and_score_t ⟨required_cols, []⟩ "eco" unit_model
      = Except.error "mat1 and mat2 shapes cannot be multiplied" :=
  embed_and_score_empty_dataset_raises ⟨required_cols, []⟩ "eco" unit_model rfl
    (by simp [unit_model])

/-- C6: the loader dispatches purely on the lowercased filename extension —
`.csv` to the delimited parser, `.xls`/`.xlsx` to the spreadsheet parser —
and any other extension fails with the unsupported-format error, naming the
allowed formats, without consulting either parser. -/
theorem load_dataset_extension_dispatch {α : Type}
    (read_csv read_excel : α → Except String DataFrame) (nm : String) (content : α) :
    (ends_with (lower nm) ".csv" = true →
        load_dataset read_csv read_excel nm content = read_csv content)
    ∧ (ends_with (lower nm) ".csv" = false →
        (ends_with (lower nm) ".xls" || ends_with (lower nm) ".xlsx") = true →
          load_dataset read_csv read_excel nm content = read_excel content)
    ∧ (ends_with (lower nm) ".csv" = false →
        (ends_with (lower nm) ".xls" || ends_with (lower nm) ".xlsx") = false →
          load_dataset read_csv read_excel nm content = Except.error unsupported_message
          ∧ (∀ rc2 re2 : α → Except String DataFrame,
              load_dataset rc2 re2 nm content = load_dataset read_csv read_excel nm content)
          ∧ (∃ u v, unsupported_message.data = u ++ ("CSV").data ++ v)
          ∧ (∃ u v, unsupported_message.data = u ++ ("Excel").data ++ v)) := by
  refine ⟨?_, ?_, ?_⟩
  · intro h1
    simp [load_dataset, h1]
  · intro h1 h2
    simp [load_dataset, h1, h2]
  · intro h1 h2
    refine ⟨by simp [load_dataset, h1, h2], fun rc2 re2 => by simp [load_dataset, h1, h2], ?_, ?_⟩
    · exact ⟨("Unsupported file format. Upload a ").data, (" or Excel file.").data, rfl⟩
    · exact ⟨("Unsupported file format. Upload a CSV or ").data, (" file.").data, rfl⟩

/-- Witness for C6 at a `.txt` upload: the error is returned and both
parsers are irrelevant. -/
theorem load_dataset_extension_dispatch_witness :
    load_dataset (fun _ : String => Except.ok sample_frame)
        (fun _ : String => Except.ok empty_frame) "creators.txt" "raw,bytes"
      = Except.error unsupported_message :=
  ((load_dataset_extension_dispatch (fun _ : String => Except.ok sample_frame)
    (fun _ : String => Except.ok empty_frame) "creators.txt" "raw,bytes").2.2
    (by decide) (by decide)).1

/-- C7: the string actually encoded as the retrieval query is exactly the
fixed instructional text followed by the brief, while each record's bio is
encoded without any prepended text. -/
theorem embed_query_instruction (df : DataFrame) (brief : String)
    (model : String → Vec)
    (h_len : ∀ r ∈ df.rows, r.length = df.cols.length)
    (hbe : "bio_embedding" ∉ df.cols)
    (hsim : "similarity_score" ∉ df.cols) :
    col_values (embed_and_score df brief model) "similarity_score"
      = (col_values df "bio").map (fun v => Value.num (cos_sim
          (model ("Represent this sentence for searching relevant passages: " ++ brief))
          (model (to_text v)))) := by
  rw [col_values_embed df brief model h_len hbe hsim]
  simp [col_values, score_of, query_instruction, List.map_map]

/-- Witness for C7 at the sample frame and the toy unit model. -/
theorem embed_query_instruction_witness :
    col_values (embed_and_score sample_frame "modern lifestyle" unit_model) "similarity_score"
      = (col_values sample_frame "bio").map (fun v => Value.num (cos_sim
          (unit_model ("Represent this sentence for searching relevant passages: "
            ++ "modern lifestyle"))
          (unit_model (to_text v)))) :=
  embed_query_instruction sample_frame "modern lifestyle" unit_model
    (by simp [sample_frame]) (by decide) (by decide)

/-- C8: scoring is deterministic — two calls over frames with identical
contents, the same brief and the same pure model produce identical scored
frames, regardless of the surrounding heap state. -/
theorem embed_and_score_deterministic (s1 s2 : PdHeap) (r1 r2 : Nat)
    (brief : String) (model : String → Vec) (h : readF s1 r1 = readF s2 r2) :
    readF (embed_and_score_st s1 r1 brief model).1 (embed_and_score_st s1 r1 brief model).2
      = readF (embed_and_score_st s2 r2 brief model).1 (embed_and_score_st s2 r2 brief model).2 := by
  rw [embed_and_score_st_frame, embed_and_score_st_frame, h]

/-- Witness for C8: the same frame contents stored in two different heaps at
different references score identically. -/
theorem embed_and_score_deterministic_witness :
    readF (embed_and_score_st ⟨[sample_frame]⟩ 0 "eco" unit_model).1
        (embed_and_score_st ⟨[sample_frame]⟩ 0 "eco" unit_model).2
      = readF (embed_and_score_st ⟨[empty_frame, sample_frame]⟩ 1 "eco" unit_model).1
          (embed_and_score_st ⟨[empty_frame, sample_frame]⟩ 1 "eco" unit_model).2 :=
  embed_and_score_deterministic ⟨[sample_frame]⟩ ⟨[empty_frame, sample_frame]⟩ 0 1
    "eco" unit_model rfl

/-- Columns are untouched by the sidebar equality filters. -/
theorem filter_by_cols (df : DataFrame) (c s : String) :
    (filter_by df c s).cols = df.cols := by
  by_cases h : s = "All" <;> simp [filter_by, h]

/-- The CSV export is the comma-joined header line followed by the body. -/
theorem to_csv_split (render : Value → String) (df : DataFrame) :
    to_csv render df = String.intercalate "," df.cols ++ "\n"
      ++ String.join (df.rows.map (fun r => String.intercalate "," (r.map render) ++ "\n")) :=
  rfl

/-- C9: the scored frame carries exactly the input columns in order plus the
appended `similarity_score`; `bio_embedding` survives on neither the
columns nor the rows; and the CSV export of the filtered/sorted subset has
the same column layout. -/
theorem scored_frame_column_layout (df : DataFrame) (brief : String)
    (model : String → Vec)
    (h_len : ∀ r ∈ df.rows, r.length = df.cols.length)
    (hbe : "bio_embedding" ∉ df.cols)
    (hsim : "similarity_score" ∉ df.cols) :
    (embed_and_score df brief model).cols = df.cols ++ ["similarity_score"]
    ∧ "bio_embedding" ∉ (embed_and_score df brief model).cols
    ∧ (∀ row ∈ (embed_and_score df brief model).rows,
        ∃ r s, r ∈ df.rows ∧ row = r ++ [Value.num s])
    ∧ ∀ (sel_niche sel_loc : String) (n : Nat) (render : Value → String),
        ∃ body,
          to_csv render (top_creators
              (filter_by (filter_by (embed_and_score df brief model) "niche" sel_niche)
                "location" sel_loc) n)
            = String.intercalate "," (df.cols ++ ["similarity_score"]) ++ "\n" ++ body := by
  have hc := embed_and_score_cols df brief model hbe hsim
  have hr := embed_and_score_rows df brief model h_len hbe hsim
  refine ⟨hc, ?_, ?_, ?_⟩
  · rw [hc]
    intro hmem
    rcases List.mem_append.mp hmem with h1 | h1
    · exact hbe h1
    · simp at h1
  · rw [hr]
    intro row hrow
    rcases List.mem_map.mp hrow with ⟨r, hrmem, heq⟩
    exact ⟨r, score_of model brief df.cols r, hrmem, heq.symm⟩
  · intro sel_niche sel_loc n render
    have hcols : (top_creators
        (filter_by (filter_by (embed_and_score df brief model) "niche" sel_niche)
          "location" sel_loc) n).cols = df.cols ++ ["similarity_score"] := by
      simp [top_creators, head_n, sort_values_desc, filter_by_cols, hc]
    exact ⟨_, by rw [to_csv_split, hcols]⟩

/-- Witness for C9 at the sample frame: column layout of the scored frame. -/
theorem scored_frame_column_layout_witness :
    (embed_and_score sample_frame "eco" unit_model).cols
        = sample_frame.cols ++ ["similarity_score"]
    ∧ "bio_embedding" ∉ (embed_and_score sample_frame "eco" unit_model).cols :=
  have h := scored_frame_column_layout sample_frame "eco" unit_model
    (by simp [sample_frame]) (by decide) (by decide)
  ⟨h.1, h.2.1⟩

/-- C10: `embed_and_score` never mutates the caller's frame — the column
assignments hit the copy made inside the function — and its result is the
pure function of the input frame's contents, so scoring can be re-run on
the same loaded dataset. -/
theorem embed_and_score_no_mutation (s : PdHeap) (r : Nat) (brief : String)
    (model : String → Vec) (h : r < s.frames.length) :
    readF (embed_and_score_st s r brief model).1 r = readF s r
    ∧ readF (embed_and_score_st s r brief model).1 (embed_and_score_st s r brief model).2
        = embed_and_score (readF s r) brief model :=
  ⟨embed_and_score_st_caller s r brief model h, embed_and_score_st_frame s r brief model⟩

/-- Witness for C10 at a one-frame heap. -/
theorem embed_and_score_no_mutation_witness :
    readF (embed_and_score_st ⟨[sample_frame]⟩ 0 "eco" unit_model).1 0
        = readF ⟨[sample_frame]⟩ 0
    ∧ readF (embed_and_score_st ⟨[sample_frame]⟩ 0 "eco" unit_model).1
          (embed_and_score_st ⟨[sample_frame]⟩ 0 "eco" unit_model).2
        = embed_and_score (readF ⟨[sample_frame]⟩ 0) "eco" unit_model :=
  embed_and_score_no_mutation ⟨[sample_frame]⟩ 0 "eco" unit_model (by decide)

end CreatorMatching
